import Mathlib

/-!
Shallow embedding of the TaskFlow authentication core
(backend/src/controllers/authController.ts, backend/src/middleware/auth.ts,
backend/src/utils/jwt.ts, backend/src/types/user.types.ts).

Conventions of the embedding:
* JavaScript `Date` values are modelled as natural numbers (milliseconds).
* The MongoDB user collection is modelled as a `List User`; `findOne`/`findById`
  is `List.find?`, and `save` writes the document back by `_id`.
* `crypto.createHash('sha256')` is an external primitive; the operations take the
  digest function as an explicit parameter `hash : String → String`.
* `bcrypt`-style password comparison (`comparePassword`) is likewise passed as a
  parameter `pwVerify : String → String → Bool` (candidate, stored hash).
* Code that throws is modelled with `Option`/explicit error results.
-/

namespace TaskFlow

/-- The identity record, mirroring `IUser` in `backend/src/types/user.types.ts`
(only the fields the authentication core reads or writes; preferences and the
timestamps are irrelevant to every operation modelled here and are omitted). -/
structure User where
  _id : String
  email : String
  password : String
  firstName : String
  lastName : String
  avatar : Option String
  isEmailVerified : Bool
  emailVerificationToken : Option String
  emailVerificationExpires : Option Nat
  passwordResetToken : Option String
  passwordResetExpires : Option Nat
  lastLogin : Option Nat
  isActive : Bool
  role : String
  deriving Repr, DecidableEq

/-- JS `String.prototype.toLowerCase` as used on emails (character-wise
lowering, written over the character list so that it evaluates by
kernel reduction). -/
def toLowerCase (s : String) : String := ⟨s.data.map Char.toLower⟩

/-- An HTTP JSON response of the auth controllers: status code and `message`
field of the response envelope. -/
structure Resp where
  status : Nat
  message : String
  deriving Repr, DecidableEq

/-- Mongoose `save` on a fetched document: write the (possibly modified)
document back into the collection by primary key. -/
def saveUser (users : List User) (u : User) : List User :=
  users.map (fun v => if v._id = u._id then u else v)

/-- The filter of `User.findOne({ emailVerificationToken: hashedToken,
emailVerificationExpires: { $gt: new Date() } })` in `verifyEmail`
(authController.ts:241-244): stored hash equals the recomputed hash and the
stored expiry is strictly later than `now` (`$gt` on an absent field fails). -/
def matchesVerification (h : String) (now : Nat) (u : User) : Bool :=
  u.emailVerificationToken = some h &&
    match u.emailVerificationExpires with
    | some e => decide (now < e)
    | none => false

/-- The filter of `User.findOne({ passwordResetToken: hashedToken,
passwordResetExpires: { $gt: new Date() } })` in `resetPassword`
(authController.ts:462-465). -/
def matchesReset (h : String) (now : Nat) (u : User) : Bool :=
  u.passwordResetToken = some h &&
    match u.passwordResetExpires with
    | some e => decide (now < e)
    | none => false

/-- Endpoint `GET /verify-email` — `verifyEmail` in authController.ts:225-303.
Returns the response together with the updated collection.  JS `!token`
treats the empty string as missing, hence the extra check.  The welcome email
is best-effort (errors swallowed) and does not affect response or state. -/
def verifyEmail (hash : String → String) (users : List User)
    (token : Option String) (now : Nat) : Resp × List User :=
  match token with
  | none => (⟨400, "Invalid verification token."⟩, users)
  | some t =>
    if t = "" then (⟨400, "Invalid verification token."⟩, users) else
    let hashedToken := hash t
    match users.find? (matchesVerification hashedToken now) with
    | none => (⟨400, "Invalid or expired verification token."⟩, users)
    | some u =>
      let u' : User :=
        { u with isEmailVerified := true
                 emailVerificationToken := none
                 emailVerificationExpires := none }
      (⟨200, "Email verified successfully."⟩, saveUser users u')

/-- Endpoint `POST /reset-password` — `resetPassword` in authController.ts:438-503.
JS `!token || !newPassword` treats empty strings as missing.  `pwHash` models
the pre-save bcrypt hashing of the new password performed by the user model;
it does not influence the response or the token fields. -/
def resetPassword (hash : String → String) (pwHash : String → String)
    (users : List User) (token : Option String) (newPassword : Option String)
    (now : Nat) : Resp × List User :=
  match token, newPassword with
  | none, _ => (⟨400, "Token and new password are required."⟩, users)
  | _, none => (⟨400, "Token and new password are required."⟩, users)
  | some t, some np =>
    if t = "" ∨ np = "" then
      (⟨400, "Token and new password are required."⟩, users)
    else if np.length < 8 then
      (⟨400, "Password must be at least 8 characters long."⟩, users)
    else
      let hashedToken := hash t
      match users.find? (matchesReset hashedToken now) with
      | none => (⟨400, "Invalid or expired reset token."⟩, users)
      | some u =>
        let u' : User :=
          { u with password := pwHash np
                   passwordResetToken := none
                   passwordResetExpires := none }
        (⟨200, "Password has been reset successfully."⟩, saveUser users u')

end TaskFlow

namespace TaskFlow

/-- C1, part of the statement packaged as a predicate: some user in the store
holds exactly the SHA-256 hash of the presented plaintext for the given kind
with a strictly-future expiry. -/
def liveVerificationMatch (hash : String → String) (users : List User)
    (t : String) (now : Nat) : Prop :=
  ∃ u ∈ users, u.emailVerificationToken = some (hash t) ∧
    ∃ e, u.emailVerificationExpires = some e ∧ now < e

def liveResetMatch (hash : String → String) (users : List User)
    (t : String) (now : Nat) : Prop :=
  ∃ u ∈ users, u.passwordResetToken = some (hash t) ∧
    ∃ e, u.passwordResetExpires = some e ∧ now < e

theorem matchesVerification_iff (h : String) (now : Nat) (u : User) :
    matchesVerification h now u = true ↔
      u.emailVerificationToken = some h ∧
        ∃ e, u.emailVerificationExpires = some e ∧ now < e := by
  unfold matchesVerification
  cases he : u.emailVerificationExpires with
  | none => simp [he]
  | some e => simp [he]

theorem matchesReset_iff (h : String) (now : Nat) (u : User) :
    matchesReset h now u = true ↔
      u.passwordResetToken = some h ∧
        ∃ e, u.passwordResetExpires = some e ∧ now < e := by
  unfold matchesReset
  cases he : u.passwordResetExpires with
  | none => simp [he]
  | some e => simp [he]

theorem find?_verification_none (hash : String → String) (users : List User)
    (t : String) (now : Nat)
    (hno : ¬ liveVerificationMatch hash users t now) :
    users.find? (matchesVerification (hash t) now) = none := by
  rw [List.find?_eq_none]
  intro u hu hp
  rw [matchesVerification_iff] at hp
  exact hno ⟨u, hu, hp⟩

theorem find?_reset_none (hash : String → String) (users : List User)
    (t : String) (now : Nat)
    (hno : ¬ liveResetMatch hash users t now) :
    users.find? (matchesReset (hash t) now) = none := by
  rw [List.find?_eq_none]
  intro u hu hp
  rw [matchesReset_iff] at hp
  exact hno ⟨u, hu, hp⟩

/-- C1 (verify-email half): success happens exactly on a live hash match, and
every string token that fails gets the one generic 400 response with the store
untouched. -/
theorem verifyEmail_success_iff (hash : String → String) (users : List User)
    (t : String) (now : Nat) (ht : t ≠ "") :
    (verifyEmail hash users (some t) now).1.status = 200 ↔
      liveVerificationMatch hash users t now := by
  constructor
  · intro hs
    by_contra hno
    rw [show verifyEmail hash users (some t) now =
        (⟨400, "Invalid or expired verification token."⟩, users) from by
      simp only [verifyEmail, if_neg ht,
        find?_verification_none hash users t now hno]] at hs
    simp at hs
  · rintro ⟨u, hu, htok, e, he, hlt⟩
    simp only [verifyEmail, if_neg ht]
    cases hf : users.find? (matchesVerification (hash t) now) with
    | none =>
      have := List.find?_eq_none.mp hf u hu
      rw [matchesVerification_iff] at this
      exact absurd ⟨htok, e, he, hlt⟩ this
    | some v => rfl

theorem verifyEmail_fail (hash : String → String) (users : List User)
    (t : String) (now : Nat) (ht : t ≠ "")
    (hno : ¬ liveVerificationMatch hash users t now) :
    verifyEmail hash users (some t) now =
      (⟨400, "Invalid or expired verification token."⟩, users) := by
  simp only [verifyEmail, if_neg ht,
    find?_verification_none hash users t now hno]

theorem length_ge_ne_empty (np : String) (hnp : ¬ np.length < 8) : np ≠ "" :=
  fun h => hnp (by simp [h])

theorem resetPassword_fail (hash pwHash : String → String) (users : List User)
    (t np : String) (now : Nat) (ht : t ≠ "") (hnp : ¬ np.length < 8)
    (hno : ¬ liveResetMatch hash users t now) :
    resetPassword hash pwHash users (some t) (some np) now =
      (⟨400, "Invalid or expired reset token."⟩, users) := by
  simp only [resetPassword, if_neg (not_or.mpr ⟨ht, length_ge_ne_empty np hnp⟩),
    find?_reset_none hash users t now hno, if_neg hnp]

theorem resetPassword_success_iff (hash pwHash : String → String)
    (users : List User) (t np : String) (now : Nat) (ht : t ≠ "")
    (hnp : ¬ np.length < 8) :
    (resetPassword hash pwHash users (some t) (some np) now).1.status = 200 ↔
      liveResetMatch hash users t now := by
  constructor
  · intro hs
    by_contra hno
    rw [resetPassword_fail hash pwHash users t np now ht hnp hno] at hs
    simp at hs
  · rintro ⟨u, hu, htok, e, he, hlt⟩
    simp only [resetPassword,
      if_neg (not_or.mpr ⟨ht, length_ge_ne_empty np hnp⟩), if_neg hnp]
    cases hf : users.find? (matchesReset (hash t) now) with
    | none =>
      have := List.find?_eq_none.mp hf u hu
      rw [matchesReset_iff] at this
      exact absurd ⟨htok, e, he, hlt⟩ this
    | some v => rfl

/-- A sample identity used to instantiate witness theorems. -/
def demoUser : User :=
  { _id := "64b0"
    email := "a@x.com"
    password := "bcrypt$stored"
    firstName := "Ada"
    lastName := "Lovelace"
    avatar := none
    isEmailVerified := false
    emailVerificationToken := some "tokV"
    emailVerificationExpires := some 100
    passwordResetToken := some "tokR"
    passwordResetExpires := some 100
    lastLogin := none
    isActive := true
    role := "user" }

/-- C1: a presented email-verification or password-reset token is accepted
exactly when the recomputed SHA-256 digest of the plaintext equals the stored
hash of that kind and the stored expiry is strictly later than now; every
other presented plaintext — wrong value, absent stored hash, or expired
token — yields the one generic 400 response of that endpoint, with the store
unchanged, so the three failure causes are indistinguishable. -/
theorem singleUseToken_consume_gate (hash pwHash : String → String)
    (users : List User) (t np : String) (now : Nat) (ht : t ≠ "") :
    ((verifyEmail hash users (some t) now).1.status = 200 ↔
        liveVerificationMatch hash users t now) ∧
    (¬ liveVerificationMatch hash users t now →
      verifyEmail hash users (some t) now =
        (⟨400, "Invalid or expired verification token."⟩, users)) ∧
    (¬ np.length < 8 →
      (((resetPassword hash pwHash users (some t) (some np) now).1.status = 200 ↔
          liveResetMatch hash users t now) ∧
        (¬ liveResetMatch hash users t now →
          resetPassword hash pwHash users (some t) (some np) now =
            (⟨400, "Invalid or expired reset token."⟩, users)))) :=
  ⟨verifyEmail_success_iff hash users t now ht,
   verifyEmail_fail hash users t now ht,
   fun hnp =>
    ⟨resetPassword_success_iff hash pwHash users t np now ht hnp,
     resetPassword_fail hash pwHash users t np now ht hnp⟩⟩

theorem singleUseToken_consume_gate_witness :
    ((verifyEmail id [demoUser] (some "tokV") 50).1.status = 200) ∧
    (verifyEmail id [demoUser] (some "other") 50 =
      (⟨400, "Invalid or expired verification token."⟩, [demoUser])) ∧
    (verifyEmail id [demoUser] (some "tokV") 100 =
      (⟨400, "Invalid or expired verification token."⟩, [demoUser])) ∧
    (resetPassword id id [demoUser] (some "tokR") (some "longenough1") 50).1.status
      = 200 := by
  refine ⟨?_, ?_, ?_, ?_⟩
  · exact (singleUseToken_consume_gate id id [demoUser] "tokV" "longenough1" 50 (by decide)).1.mpr
      ⟨demoUser, by decide, by decide, 100, by decide, by decide⟩
  · exact (singleUseToken_consume_gate id id [demoUser] "other" "longenough1" 50 (by decide)).2.1
      (by unfold liveVerificationMatch; decide)
  · exact (singleUseToken_consume_gate id id [demoUser] "tokV" "longenough1" 100 (by decide)).2.1
      (by unfold liveVerificationMatch; decide)
  · exact ((singleUseToken_consume_gate id id [demoUser] "tokR" "longenough1" 50 (by decide)).2.2
      (by decide)).1.mpr ⟨demoUser, by decide, by decide, 100, by decide, by decide⟩

/-- The successful branch of `verifyEmail` in terms of the found document
(authController.ts:254-258). -/
theorem verifyEmail_success_eq (hash : String → String) (users : List User)
    (t : String) (now : Nat) (ht : t ≠ "") (u : User)
    (hf : users.find? (matchesVerification (hash t) now) = some u) :
    verifyEmail hash users (some t) now =
      (⟨200, "Email verified successfully."⟩,
        saveUser users
          { u with isEmailVerified := true
                   emailVerificationToken := none
                   emailVerificationExpires := none }) := by
  simp only [verifyEmail, if_neg ht, hf]

/-- The successful branch of `resetPassword` (authController.ts:475-479). -/
theorem resetPassword_success_eq (hash pwHash : String → String)
    (users : List User) (t np : String) (now : Nat) (ht : t ≠ "")
    (hnp : ¬ np.length < 8)
    (u : User) (hf : users.find? (matchesReset (hash t) now) = some u) :
    resetPassword hash pwHash users (some t) (some np) now =
      (⟨200, "Password has been reset successfully."⟩,
        saveUser users
          { u with password := pwHash np
                   passwordResetToken := none
                   passwordResetExpires := none }) := by
  simp only [resetPassword,
    if_neg (not_or.mpr ⟨ht, length_ge_ne_empty np hnp⟩), if_neg hnp, hf]

/-- After the consuming update of `verifyEmail`, no document in the store
still matches the consumed hash, provided at most one identity stored that
hash (token hashes are high-entropy and unique across identities). -/
theorem consumed_verification_gone (hash : String → String) (users : List User)
    (t : String) (now now' : Nat) (u : User)
    (hf : users.find? (matchesVerification (hash t) now) = some u)
    (huniq : ∀ v ∈ users, v.emailVerificationToken = some (hash t) →
      v._id = u._id) :
    (saveUser users
        { u with isEmailVerified := true
                 emailVerificationToken := none
                 emailVerificationExpires := none }).find?
      (matchesVerification (hash t) now') = none := by
  rw [List.find?_eq_none]
  intro v' hv' hp
  rw [matchesVerification_iff] at hp
  obtain ⟨v, hv, hveq⟩ := List.mem_map.mp hv'
  by_cases hid : v._id = u._id
  · rw [if_pos hid] at hveq
    rw [← hveq] at hp
    exact Option.noConfusion hp.1
  · rw [if_neg hid] at hveq
    rw [← hveq] at hp
    exact hid (huniq v hv hp.1)

theorem consumed_reset_gone (hash : String → String) (users : List User)
    (t np : String) (now now' : Nat) (pwHash : String → String) (u : User)
    (hf : users.find? (matchesReset (hash t) now) = some u)
    (huniq : ∀ v ∈ users, v.passwordResetToken = some (hash t) →
      v._id = u._id) :
    (saveUser users
        { u with password := pwHash np
                 passwordResetToken := none
                 passwordResetExpires := none }).find?
      (matchesReset (hash t) now') = none := by
  rw [List.find?_eq_none]
  intro v' hv' hp
  rw [matchesReset_iff] at hp
  obtain ⟨v, hv, hveq⟩ := List.mem_map.mp hv'
  by_cases hid : v._id = u._id
  · rw [if_pos hid] at hveq
    rw [← hveq] at hp
    exact Option.noConfusion hp.1
  · rw [if_neg hid] at hveq
    rw [← hveq] at hp
    exact hid (huniq v hv hp.1)

/-- C2: a successful consume clears the stored hash and expiry in the same
state update that applies the authorized transition (marking the email
verified, or installing the new password), and from the resulting store a
second consume of the same plaintext is rejected — a token is consumed at
most once.  The uniqueness hypotheses say no two distinct identities store
the same token hash (token values are high-entropy random). -/
theorem singleUseToken_at_most_once (hash pwHash : String → String)
    (users : List User) (t np np' : String) (now now' : Nat)
    (ht : t ≠ "") (hnp : ¬ np.length < 8) (hnp' : ¬ np'.length < 8)
    (huv : ∀ v ∈ users, ∀ w ∈ users,
      v.emailVerificationToken = some (hash t) →
      w.emailVerificationToken = some (hash t) → v._id = w._id)
    (hur : ∀ v ∈ users, ∀ w ∈ users,
      v.passwordResetToken = some (hash t) →
      w.passwordResetToken = some (hash t) → v._id = w._id) :
    ((verifyEmail hash users (some t) now).1.status = 200 →
      (∃ u, users.find? (matchesVerification (hash t) now) = some u ∧
        (verifyEmail hash users (some t) now).2 =
          saveUser users
            { u with isEmailVerified := true
                     emailVerificationToken := none
                     emailVerificationExpires := none }) ∧
      verifyEmail hash (verifyEmail hash users (some t) now).2 (some t) now' =
        (⟨400, "Invalid or expired verification token."⟩,
          (verifyEmail hash users (some t) now).2)) ∧
    ((resetPassword hash pwHash users (some t) (some np) now).1.status = 200 →
      (∃ u, users.find? (matchesReset (hash t) now) = some u ∧
        (resetPassword hash pwHash users (some t) (some np) now).2 =
          saveUser users
            { u with password := pwHash np
                     passwordResetToken := none
                     passwordResetExpires := none }) ∧
      resetPassword hash pwHash
          (resetPassword hash pwHash users (some t) (some np) now).2
          (some t) (some np') now' =
        (⟨400, "Invalid or expired reset token."⟩,
          (resetPassword hash pwHash users (some t) (some np) now).2)) := by
  constructor
  · intro hs
    cases hf : users.find? (matchesVerification (hash t) now) with
    | none =>
      rw [show verifyEmail hash users (some t) now =
          (⟨400, "Invalid or expired verification token."⟩, users) from by
        simp only [verifyEmail, if_neg ht, hf]] at hs
      simp at hs
    | some u =>
      have heq := verifyEmail_success_eq hash users t now ht u hf
      have humem := List.mem_of_find?_eq_some hf
      have hutok :=
        ((matchesVerification_iff (hash t) now u).mp (List.find?_some hf)).1
      have huniq : ∀ v ∈ users, v.emailVerificationToken = some (hash t) →
          v._id = u._id := fun v hv hvt => huv v hv u humem hvt hutok
      refine ⟨⟨u, rfl, by rw [heq]⟩, ?_⟩
      rw [heq]
      simp only [verifyEmail, if_neg ht,
        consumed_verification_gone hash users t now now' u hf huniq]
  · intro hs
    by_cases hlen : np.length < 8
    · by_cases hne : np = ""
      · rw [show resetPassword hash pwHash users (some t) (some np) now =
            (⟨400, "Token and new password are required."⟩, users) from by
          simp only [resetPassword, if_pos (Or.inr hne)]] at hs
        simp at hs
      · rw [show resetPassword hash pwHash users (some t) (some np) now =
            (⟨400, "Password must be at least 8 characters long."⟩, users) from by
          simp only [resetPassword, if_neg (not_or.mpr ⟨ht, hne⟩),
            if_pos hlen]] at hs
        simp at hs
    cases hf : users.find? (matchesReset (hash t) now) with
    | none =>
      rw [show resetPassword hash pwHash users (some t) (some np) now =
          (⟨400, "Invalid or expired reset token."⟩, users) from by
        simp only [resetPassword,
          if_neg (not_or.mpr ⟨ht, length_ge_ne_empty np hlen⟩),
          if_neg hlen, hf]] at hs
      simp at hs
    | some u =>
      have heq := resetPassword_success_eq hash pwHash users t np now ht hlen u hf
      have humem := List.mem_of_find?_eq_some hf
      have hutok :=
        ((matchesReset_iff (hash t) now u).mp (List.find?_some hf)).1
      have huniq : ∀ v ∈ users, v.passwordResetToken = some (hash t) →
          v._id = u._id := fun v hv hvt => hur v hv u humem hvt hutok
      refine ⟨⟨u, rfl, by rw [heq]⟩, ?_⟩
      rw [heq]
      simp only [resetPassword,
        if_neg (not_or.mpr ⟨ht, length_ge_ne_empty np' hnp'⟩), if_neg hnp',
        consumed_reset_gone hash users t np now now' pwHash u hf huniq]

theorem singleUseToken_at_most_once_witness :
    verifyEmail id (verifyEmail id [demoUser] (some "tokV") 50).2
        (some "tokV") 60 =
      (⟨400, "Invalid or expired verification token."⟩,
        (verifyEmail id [demoUser] (some "tokV") 50).2) ∧
    resetPassword id id
        (resetPassword id id [demoUser] (some "tokR") (some "longenough1") 50).2
        (some "tokR") (some "longenough2") 60 =
      (⟨400, "Invalid or expired reset token."⟩,
        (resetPassword id id [demoUser] (some "tokR") (some "longenough1") 50).2) := by
  have h := singleUseToken_at_most_once id id [demoUser] "tokV" "longenough1"
    "longenough2" 50 60 (by decide) (by decide) (by decide) (by decide)
    (by decide)
  have h2 := singleUseToken_at_most_once id id [demoUser] "tokR" "longenough1"
    "longenough2" 50 60 (by decide) (by decide) (by decide) (by decide)
    (by decide)
  exact ⟨(h.1 (by decide)).2, (h2.2 (by decide)).2⟩

/-- Modelled from the spec: the user model's `generateEmailVerificationToken`
(backend `Models/user.ts` is not among the sources; only its interface
`IUserMethods` is).  Per spec §4.2 `issue`: generate a high-entropy random
plaintext (passed in here), persist its one-way hash together with
`expiry = now + window[kind]` onto the identity (verification window = 24h),
and hand the plaintext back to the caller.  Each kind has a single stored
hash/expiry pair (`IUser`), so issuing overwrites it. -/
def generateEmailVerificationToken (hash : String → String) (u : User)
    (plaintext : String) (now : Nat) : User :=
  { u with emailVerificationToken := some (hash plaintext)
           emailVerificationExpires := some (now + 24 * 60 * 60 * 1000) }

/-- Modelled from the spec: the user model's `generatePasswordResetToken`
(backend `Models/user.ts` is not among the sources).  Per spec §4.2 `issue`
with the reset window = 10 minutes. -/
def generatePasswordResetToken (hash : String → String) (u : User)
    (plaintext : String) (now : Nat) : User :=
  { u with passwordResetToken := some (hash plaintext)
           passwordResetExpires := some (now + 10 * 60 * 1000) }

/-- C9: issuing a new single-use token of a kind overwrites the identity's
single stored hash/expiry pair of that kind, so after a second issue the
previously issued, unconsumed plaintext is rejected and only the most recent
one can be consumed.  `hcoll` says the two distinct random plaintexts do not
collide under SHA-256. -/
theorem issue_overwrites_previous_token (hash pwHash : String → String)
    (u : User) (t1 t2 np : String) (now1 now2 now' : Nat)
    (hcoll : hash t1 ≠ hash t2) (ht1 : t1 ≠ "") (ht2 : t2 ≠ "")
    (hnp : ¬ np.length < 8) :
    ((generateEmailVerificationToken hash
        (generateEmailVerificationToken hash u t1 now1) t2
        now2).emailVerificationToken = some (hash t2) ∧
      (generateEmailVerificationToken hash
        (generateEmailVerificationToken hash u t1 now1) t2
        now2).emailVerificationExpires = some (now2 + 24 * 60 * 60 * 1000)) ∧
    (verifyEmail hash
        [generateEmailVerificationToken hash
          (generateEmailVerificationToken hash u t1 now1) t2 now2]
        (some t1) now' =
      (⟨400, "Invalid or expired verification token."⟩,
        [generateEmailVerificationToken hash
          (generateEmailVerificationToken hash u t1 now1) t2 now2])) ∧
    (now' < now2 + 24 * 60 * 60 * 1000 →
      (verifyEmail hash
          [generateEmailVerificationToken hash
            (generateEmailVerificationToken hash u t1 now1) t2 now2]
          (some t2) now').1.status = 200) ∧
    ((generatePasswordResetToken hash
        (generatePasswordResetToken hash u t1 now1) t2
        now2).passwordResetToken = some (hash t2) ∧
      (generatePasswordResetToken hash
        (generatePasswordResetToken hash u t1 now1) t2
        now2).passwordResetExpires = some (now2 + 10 * 60 * 1000)) ∧
    (resetPassword hash pwHash
        [generatePasswordResetToken hash
          (generatePasswordResetToken hash u t1 now1) t2 now2]
        (some t1) (some np) now' =
      (⟨400, "Invalid or expired reset token."⟩,
        [generatePasswordResetToken hash
          (generatePasswordResetToken hash u t1 now1) t2 now2])) ∧
    (now' < now2 + 10 * 60 * 1000 →
      (resetPassword hash pwHash
          [generatePasswordResetToken hash
            (generatePasswordResetToken hash u t1 now1) t2 now2]
          (some t2) (some np) now').1.status = 200) := by
  refine ⟨⟨rfl, rfl⟩, ?_, ?_, ⟨rfl, rfl⟩, ?_, ?_⟩
  · apply verifyEmail_fail hash _ t1 now' ht1
    rintro ⟨v, hv, htok, -⟩
    rw [List.mem_singleton] at hv
    rw [hv] at htok
    exact hcoll (Option.some.inj htok).symm
  · intro hlt
    exact (verifyEmail_success_iff hash _ t2 now' ht2).mpr
      ⟨_, List.mem_singleton_self _, rfl, now2 + 24 * 60 * 60 * 1000, rfl, hlt⟩
  · apply resetPassword_fail hash pwHash _ t1 np now' ht1 hnp
    rintro ⟨v, hv, htok, -⟩
    rw [List.mem_singleton] at hv
    rw [hv] at htok
    exact hcoll (Option.some.inj htok).symm
  · intro hlt
    exact (resetPassword_success_iff hash pwHash _ t2 np now' ht2 hnp).mpr
      ⟨_, List.mem_singleton_self _, rfl, now2 + 10 * 60 * 1000, rfl, hlt⟩

theorem issue_overwrites_previous_token_witness :
    verifyEmail id
        [generateEmailVerificationToken id
          (generateEmailVerificationToken id demoUser "t1" 10) "t2" 20]
        (some "t1") 30 =
      (⟨400, "Invalid or expired verification token."⟩,
        [generateEmailVerificationToken id
          (generateEmailVerificationToken id demoUser "t1" 10) "t2" 20]) ∧
    (verifyEmail id
        [generateEmailVerificationToken id
          (generateEmailVerificationToken id demoUser "t1" 10) "t2" 20]
        (some "t2") 30).1.status = 200 ∧
    resetPassword id id
        [generatePasswordResetToken id
          (generatePasswordResetToken id demoUser "t1" 10) "t2" 20]
        (some "t1") (some "longenough1") 30 =
      (⟨400, "Invalid or expired reset token."⟩,
        [generatePasswordResetToken id
          (generatePasswordResetToken id demoUser "t1" 10) "t2" 20]) := by
  have h := issue_overwrites_previous_token id id demoUser "t1" "t2"
    "longenough1" 10 20 30 (by decide) (by decide) (by decide) (by decide)
  exact ⟨h.2.1, h.2.2.1 (by decide), h.2.2.2.2.1⟩

/-- Endpoint `POST /forgot-password` — `forgotPassword` in authController.ts:367-435.
JS `!email` treats the empty string as missing.  On a known email the reset
token is generated and saved before the notifier runs; `emailDeliveryOk`
models whether `sendPasswordResetEmail` succeeds (a hard notifier failure
yields 500 after the token was already persisted).  `plaintext` is the random
token value generated inside `generatePasswordResetToken`. -/
def forgotPassword (hash : String → String) (users : List User)
    (email : Option String) (plaintext : String) (now : Nat)
    (emailDeliveryOk : Bool) : Resp × List User :=
  match email with
  | none => (⟨400, "Email is required."⟩, users)
  | some e =>
    if e = "" then (⟨400, "Email is required."⟩, users) else
    match users.find? (fun u => decide (u.email = toLowerCase e)) with
    | none =>
      (⟨200,
        "If an account with this email exists, a password reset link has been sent."⟩,
        users)
    | some u =>
      let users' := saveUser users (generatePasswordResetToken hash u plaintext now)
      if emailDeliveryOk then
        (⟨200,
          "If an account with this email exists, a password reset link has been sent."⟩,
          users')
      else (⟨500, "Failed to send password reset email."⟩, users')

/-- C6: forgot-password on an email with no matching account answers 200 with
the generic anti-enumeration message (never 404) and leaves the store
untouched — no reset token is issued for any identity. -/
theorem forgotPassword_unknown_email (hash : String → String)
    (users : List User) (e plaintext : String) (now : Nat) (ok : Bool)
    (he : e ≠ "") (hno : ∀ u ∈ users, u.email ≠ toLowerCase e) :
    forgotPassword hash users (some e) plaintext now ok =
      (⟨200,
        "If an account with this email exists, a password reset link has been sent."⟩,
        users) := by
  have hf : users.find? (fun u => decide (u.email = toLowerCase e)) = none := by
    rw [List.find?_eq_none]
    intro u hu hp
    exact hno u hu (of_decide_eq_true hp)
  simp only [forgotPassword, if_neg he, hf]

theorem forgotPassword_unknown_email_witness :
    forgotPassword id [demoUser] (some "nobody@x.com") "tok" 50 true =
      (⟨200,
        "If an account with this email exists, a password reset link has been sent."⟩,
        [demoUser]) :=
  forgotPassword_unknown_email id [demoUser] "nobody@x.com" "tok" 50 true
    (by decide) (by decide)

/-- Endpoint `POST /login` — `login` in authController.ts:122-222.  JS `!email ||
!password` treats empty strings as missing.  `pwVerify` models the bcrypt
`comparePassword` method (candidate plaintext against the stored hash).  On
success the code also updates `lastLogin` and issues the session tokens; the
store after the `save` is returned alongside the response. -/
def login (pwVerify : String → String → Bool) (users : List User)
    (email password : Option String) (now : Nat) : Resp × List User :=
  match email, password with
  | none, _ => (⟨400, "Email and password are required."⟩, users)
  | _, none => (⟨400, "Email and password are required."⟩, users)
  | some e, some pw =>
    if e = "" ∨ pw = "" then (⟨400, "Email and password are required."⟩, users)
    else
      match users.find? (fun u => decide (u.email = toLowerCase e)) with
      | none => (⟨401, "Invalid email or password."⟩, users)
      | some u =>
        if !u.isActive then
          (⟨401, "Account has been deactivated. Please contact support."⟩, users)
        else if !(pwVerify pw u.password) then
          (⟨401, "Invalid email or password."⟩, users)
        else
          (⟨200, "Login successful."⟩, saveUser users { u with lastLogin := some now })

/-- An inactive identity, used to refute C5 as universally stated. -/
def inactiveUser : User :=
  { demoUser with _id := "64b1", email := "frozen@x.com", isActive := false }

/-- C5 as stated is false: a login attempt with a wrong password against a
known but deactivated account does not get the generic "Invalid email or
password." 401 — it gets "Account has been deactivated. Please contact
support.", which reveals that an account with that email exists.  Concretely:
the store holds `frozen@x.com` (inactive), the password verifier rejects
everything, yet the response differs from the generic one produced for the
unknown email `ghost@x.com`. -/
theorem login_enumeration_counterexample :
    (login (fun _ _ => false) [inactiveUser] (some "frozen@x.com")
        (some "wrongpw") 50).1 =
      ⟨401, "Account has been deactivated. Please contact support."⟩ ∧
    (login (fun _ _ => false) [inactiveUser] (some "ghost@x.com")
        (some "wrongpw") 50).1 =
      ⟨401, "Invalid email or password."⟩ ∧
    (login (fun _ _ => false) [inactiveUser] (some "frozen@x.com")
        (some "wrongpw") 50).1 ≠
      (login (fun _ _ => false) [inactiveUser] (some "ghost@x.com")
        (some "wrongpw") 50).1 := by
  refine ⟨by decide, by decide, by decide⟩

/-- C5 amended: as long as the account bearing the presented email, if any,
is active, an unknown email and a known email with a wrong password produce
the same generic 401 "Invalid email or password." response; a deactivated
account instead answers 401 "Account has been deactivated. Please contact
support.", which does reveal that the account exists. -/
theorem login_generic_response_amended (pwVerify : String → String → Bool)
    (users : List User) (e pw : String) (he : e ≠ "") (hpw : pw ≠ "")
    (hactive : ∀ u ∈ users, u.email = toLowerCase e → u.isActive = true) :
    ((∀ u ∈ users, u.email ≠ toLowerCase e) →
      login pwVerify users (some e) (some pw) 50 =
        (⟨401, "Invalid email or password."⟩, users)) ∧
    (∀ u ∈ users,
      users.find? (fun v => decide (v.email = toLowerCase e)) = some u →
      pwVerify pw u.password = false →
      login pwVerify users (some e) (some pw) 50 =
        (⟨401, "Invalid email or password."⟩, users)) := by
  constructor
  · intro hno
    have hf : users.find? (fun u => decide (u.email = toLowerCase e)) = none := by
      rw [List.find?_eq_none]
      intro u hu hp
      exact hno u hu (of_decide_eq_true hp)
    simp only [login, if_neg (not_or.mpr ⟨he, hpw⟩), hf]
  · intro u hu hf hbad
    have h1 : u.email = toLowerCase e := by simpa using List.find?_some hf
    have hactiveu : u.isActive = true := hactive u hu h1
    simp only [login, if_neg (not_or.mpr ⟨he, hpw⟩), hf, hactiveu, hbad,
      Bool.not_true, Bool.not_false, Bool.false_eq_true, if_false, if_true]

theorem login_generic_response_amended_witness :
    login (fun _ _ => false) [demoUser] (some "ghost@x.com") (some "pw") 50 =
      (⟨401, "Invalid email or password."⟩, [demoUser]) ∧
    login (fun _ _ => false) [demoUser] (some "a@x.com") (some "pw") 50 =
      (⟨401, "Invalid email or password."⟩, [demoUser]) := by
  have h := login_generic_response_amended (fun _ _ => false) [demoUser]
    "ghost@x.com" "pw" (by decide) (by decide) (by decide)
  have h2 := login_generic_response_amended (fun _ _ => false) [demoUser]
    "a@x.com" "pw" (by decide) (by decide) (by decide)
  exact ⟨h.1 (by decide), h2.2 demoUser (by decide) (by decide) rfl⟩

/-- Default access-token signing key (jwt.ts:5). -/
def JWT_SECRET : String := "your-super-secret-jwt-key-change-this-in-production"

/-- Default refresh-token signing key (jwt.ts:7). -/
def JWT_REFRESH_SECRET : String :=
  "your-super-secret-refresh-key-change-this-in-production"

/-- Decoded access-token claims — `JwtPayload` in jwt.ts. -/
structure JwtPayload where
  userId : String
  email : String
  role : String
  deriving Repr, DecidableEq

/-- Claims payload of a signed session token: access tokens carry
`(userId, email, role)`, refresh tokens only `userId` (jwt.ts:20-24, 49). -/
inductive TokenClaims where
  | access : JwtPayload → TokenClaims
  | refresh : String → TokenClaims
  deriving Repr, DecidableEq

/-- Idealized model of a `jsonwebtoken` HMAC token: the signature is sound
and unforgeable, so a token is represented by the claims it was signed over
together with the signing key, issuer, audience and absolute expiry, and
verification under a key succeeds only on tokens signed with that same key. -/
structure SignedToken where
  claims : TokenClaims
  key : String
  iss : String
  aud : String
  exp : Nat
  deriving Repr, DecidableEq

/-- Function `generateAccessToken` (jwt.ts:16-41): signs `(userId, email,
role)` with `JWT_SECRET`, `expiresIn: '7d'`, issuer `taskflow-api`, audience
`taskflow-app`.  `now` and `exp` are in seconds as in JWT claims. -/
def generateAccessToken (u : User) (now : Nat) : SignedToken :=
  { claims := .access ⟨u._id, u.email, u.role⟩
    key := JWT_SECRET
    iss := "taskflow-api"
    aud := "taskflow-app"
    exp := now + 7 * 24 * 60 * 60 }

/-- Function `generateRefreshToken` (jwt.ts:43-66): signs `{ userId }` with
`JWT_REFRESH_SECRET`, `expiresIn: '30d'`, same issuer and audience. -/
def generateRefreshToken (userId : String) (now : Nat) : SignedToken :=
  { claims := .refresh userId
    key := JWT_REFRESH_SECRET
    iss := "taskflow-api"
    aud := "taskflow-app"
    exp := now + 30 * 24 * 60 * 60 }

/-- Model of `jwt.verify(token, key, { issuer, audience })`: accept only if
the token was signed with `key` and its issuer/audience equal the expected
strings and it is not yet expired (`jsonwebtoken` rejects once
`now ≥ exp`); any mismatch throws, modelled as `none`. -/
def jwtVerify (tok : SignedToken) (key iss aud : String) (now : Nat) :
    Option TokenClaims :=
  if tok.key = key ∧ tok.iss = iss ∧ tok.aud = aud ∧ now < tok.exp then
    some tok.claims
  else none

/-- Function `verifyAccessToken` (jwt.ts:68-88). -/
def verifyAccessToken (tok : SignedToken) (now : Nat) : Option TokenClaims :=
  jwtVerify tok JWT_SECRET "taskflow-api" "taskflow-app" now

/-- Function `verifyRefreshToken` (jwt.ts:90-110). -/
def verifyRefreshToken (tok : SignedToken) (now : Nat) : Option TokenClaims :=
  jwtVerify tok JWT_REFRESH_SECRET "taskflow-api" "taskflow-app" now

/-- C7: the two session-token kinds are signed with two distinct keys; the
refresh verifier rejects any access-signed token and vice versa; both
verifiers reject a token whose issuer or audience differs from the fixed
strings, and a token at or past its expiry. -/
theorem sessionToken_key_iss_aud_exp (u : User) (uid : String)
    (now now' : Nat) (tok : SignedToken) :
    (generateAccessToken u now).key = JWT_SECRET ∧
    (generateRefreshToken uid now).key = JWT_REFRESH_SECRET ∧
    JWT_SECRET ≠ JWT_REFRESH_SECRET ∧
    verifyRefreshToken (generateAccessToken u now) now' = none ∧
    verifyAccessToken (generateRefreshToken uid now) now' = none ∧
    (tok.iss ≠ "taskflow-api" →
      verifyAccessToken tok now' = none ∧ verifyRefreshToken tok now' = none) ∧
    (tok.aud ≠ "taskflow-app" →
      verifyAccessToken tok now' = none ∧ verifyRefreshToken tok now' = none) ∧
    (tok.exp ≤ now' →
      verifyAccessToken tok now' = none ∧ verifyRefreshToken tok now' = none) := by
  unfold verifyAccessToken verifyRefreshToken jwtVerify generateAccessToken
    generateRefreshToken
  refine ⟨rfl, rfl, by decide, ?_, ?_, ?_, ?_, ?_⟩
  · exact if_neg (fun hc =>
      absurd (show JWT_SECRET = JWT_REFRESH_SECRET from hc.1) (by decide))
  · exact if_neg (fun hc =>
      absurd (show JWT_REFRESH_SECRET = JWT_SECRET from hc.1) (by decide))
  · intro hiss
    exact ⟨if_neg (fun hc => hiss hc.2.1), if_neg (fun hc => hiss hc.2.1)⟩
  · intro haud
    exact ⟨if_neg (fun hc => haud hc.2.2.1), if_neg (fun hc => haud hc.2.2.1)⟩
  · intro hexp
    exact ⟨if_neg (fun hc => absurd hc.2.2.2 (by omega)),
           if_neg (fun hc => absurd hc.2.2.2 (by omega))⟩

theorem sessionToken_key_iss_aud_exp_witness :
    verifyRefreshToken (generateAccessToken demoUser 0) 10 = none ∧
    verifyAccessToken (generateRefreshToken "64b0" 0) 10 = none ∧
    verifyAccessToken
        { claims := .access ⟨"64b0", "a@x.com", "user"⟩, key := JWT_SECRET,
          iss := "evil-issuer", aud := "taskflow-app", exp := 100 } 10 = none ∧
    verifyAccessToken
        { claims := .access ⟨"64b0", "a@x.com", "user"⟩, key := JWT_SECRET,
          iss := "taskflow-api", aud := "taskflow-app", exp := 100 } 100 =
      none := by
  have h := sessionToken_key_iss_aud_exp demoUser "64b0" 0 10
    { claims := .access ⟨"64b0", "a@x.com", "user"⟩, key := JWT_SECRET,
      iss := "evil-issuer", aud := "taskflow-app", exp := 100 }
  have h2 := sessionToken_key_iss_aud_exp demoUser "64b0" 0 100
    { claims := .access ⟨"64b0", "a@x.com", "user"⟩, key := JWT_SECRET,
      iss := "taskflow-api", aud := "taskflow-app", exp := 100 }
  exact ⟨h.2.2.2.1, h.2.2.2.2.1, (h.2.2.2.2.2.1 (by decide)).1,
    (h2.2.2.2.2.2.2.2 (by decide)).1⟩

/-- The characters of the scheme literal checked by
`authHeader.startsWith('Bearer ')`.  Header values are modelled as character
lists so that the structural facts about the 7-character scheme reduce. -/
def bearerScheme : List Char := "Bearer ".data

/-- Function `extractTokenFromHeader` (jwt.ts:107-123): absent header →
`null`; header not starting with the 7 characters of `'Bearer '` → `null`;
otherwise `authHeader.substring(7)`.  JS `startsWith` is the equality of the
first 7 characters, i.e. of `take 7`. -/
def extractTokenFromHeader (authHeader : Option (List Char)) :
    Option (List Char) :=
  match authHeader with
  | none => none
  | some s => if s.take 7 = bearerScheme then some (s.drop 7) else none

/-- C8: bearer extraction returns `some t` exactly when the header value is
literally the scheme `"Bearer "` followed by `t`, and `none` for every other
value (absent header, other scheme, malformed value); being a total function
it never raises. -/
theorem extractBearer_spec (h : Option (List Char)) (t : List Char) :
    (extractTokenFromHeader h = some t ↔ h = some (bearerScheme ++ t)) ∧
    (extractTokenFromHeader h = none ↔ ∀ t', h ≠ some (bearerScheme ++ t')) := by
  have hlen : bearerScheme.length = 7 := by decide
  constructor
  · cases h with
    | none => simp [extractTokenFromHeader]
    | some s =>
      simp only [extractTokenFromHeader]
      by_cases hp : s.take 7 = bearerScheme
      · rw [if_pos hp]
        constructor
        · rintro hdrop
          have hs : s.take 7 ++ s.drop 7 = s := List.take_append_drop 7 s
          rw [hp] at hs
          rw [Option.some.injEq] at hdrop ⊢
          rw [← hs, hdrop]
        · rintro hval
          rw [Option.some.injEq] at hval ⊢
          rw [hval, ← hlen, List.drop_left]
      · rw [if_neg hp]
        constructor
        · intro hc; exact absurd hc (by simp)
        · intro hval
          exfalso
          apply hp
          rw [Option.some.injEq] at hval
          rw [hval, ← hlen, List.take_left]
  · cases h with
    | none => simp [extractTokenFromHeader]
    | some s =>
      simp only [extractTokenFromHeader]
      by_cases hp : s.take 7 = bearerScheme
      · rw [if_pos hp]
        constructor
        · intro hc; exact absurd hc (by simp)
        · intro hall
          exfalso
          apply hall (s.drop 7)
          have hs : s.take 7 ++ s.drop 7 = s := List.take_append_drop 7 s
          rw [hp] at hs
          rw [Option.some.injEq]
          exact hs.symm
      · rw [if_neg hp]
        refine ⟨fun _ t' hval => ?_, fun _ => rfl⟩
        apply hp
        rw [Option.some.injEq] at hval
        rw [hval, ← hlen, List.take_left]

/-- The identity as fetched by `User.findById(id).select('-password')`: every
`User` field except the stored password hash. -/
structure SafeUser where
  _id : String
  email : String
  firstName : String
  lastName : String
  avatar : Option String
  isEmailVerified : Bool
  emailVerificationToken : Option String
  emailVerificationExpires : Option Nat
  passwordResetToken : Option String
  passwordResetExpires : Option Nat
  lastLogin : Option Nat
  isActive : Bool
  role : String
  deriving Repr, DecidableEq

/-- The projection performed by `.select('-password')`. -/
def sanitize (u : User) : SafeUser :=
  { _id := u._id
    email := u.email
    firstName := u.firstName
    lastName := u.lastName
    avatar := u.avatar
    isEmailVerified := u.isEmailVerified
    emailVerificationToken := u.emailVerificationToken
    emailVerificationExpires := u.emailVerificationExpires
    passwordResetToken := u.passwordResetToken
    passwordResetExpires := u.passwordResetExpires
    lastLogin := u.lastLogin
    isActive := u.isActive
    role := u.role }

/-- Outcome of the authentication gate: an error response was written, or the
request proceeds with the identity attached to the request context. -/
inductive AuthOutcome where
  | rejected : Nat → String → AuthOutcome
  | authenticated : SafeUser → AuthOutcome
  deriving Repr, DecidableEq

/-- Middleware `authenticate` (middleware/auth.ts:20-95).  `verify` is
`verifyAccessToken` over the opaque token strings arriving in the header
(throw modelled as `none`).  JS `!token` also catches the empty-string token
that `extractTokenFromHeader` returns for the bare header `"Bearer "`.
The lookup is `User.findById(decoded.userId).select('-password')`. -/
def authenticate (verify : List Char → Option JwtPayload) (users : List User)
    (authHeader : Option (List Char)) : AuthOutcome :=
  match extractTokenFromHeader authHeader with
  | none => .rejected 401 "Access denied. No token provided."
  | some t =>
    if t.isEmpty then .rejected 401 "Access denied. No token provided."
    else
      match verify t with
      | none => .rejected 401 "Invalid or expired token."
      | some decoded =>
        match users.find? (fun u => decide (u._id = decoded.userId)) with
        | none => .rejected 401 "User not found."
        | some user =>
          if !user.isActive then .rejected 401 "Account has been deactivated."
          else .authenticated (sanitize user)

/-- Handler `getProfile` (authController.ts:515-541): 200 with the identity
that `authenticate` attached to the request context. -/
def getProfile (u : SafeUser) : Nat × String × SafeUser :=
  (200, "Profile retrieved successfully.", u)

theorem isEmpty_false_of_ne {t : List Char} (ht : t ≠ []) :
    t.isEmpty = false := by
  cases t with
  | nil => exact absurd rfl ht
  | cons c cs => rfl

/-- C3: the authentication gate follows the claimed state machine.  The empty
token is listed with the no-token state because JS `!token` treats the empty
string extracted from the bare header `"Bearer "` as no token (and the real
verifier rejects the empty string anyway). -/
theorem authenticate_state_machine (verify : List Char → Option JwtPayload)
    (users : List User) (h : Option (List Char)) :
    ((extractTokenFromHeader h = none ∨ extractTokenFromHeader h = some []) →
      authenticate verify users h =
        .rejected 401 "Access denied. No token provided.") ∧
    (∀ t, extractTokenFromHeader h = some t → t ≠ [] → verify t = none →
      authenticate verify users h =
        .rejected 401 "Invalid or expired token.") ∧
    (∀ t p, extractTokenFromHeader h = some t → t ≠ [] → verify t = some p →
      users.find? (fun u => decide (u._id = p.userId)) = none →
      authenticate verify users h = .rejected 401 "User not found.") ∧
    (∀ t p user, extractTokenFromHeader h = some t → t ≠ [] →
      verify t = some p →
      users.find? (fun u => decide (u._id = p.userId)) = some user →
      user.isActive = false →
      authenticate verify users h =
        .rejected 401 "Account has been deactivated.") ∧
    (∀ t p user, extractTokenFromHeader h = some t → t ≠ [] →
      verify t = some p →
      users.find? (fun u => decide (u._id = p.userId)) = some user →
      user.isActive = true →
      authenticate verify users h = .authenticated (sanitize user)) := by
  refine ⟨?_, ?_, ?_, ?_, ?_⟩
  · rintro (he | he) <;> simp only [authenticate, he] <;> rfl
  · intro t he hne hv
    simp only [authenticate, he, isEmpty_false_of_ne hne, hv]
    rfl
  · intro t p he hne hv hf
    simp only [authenticate, he, isEmpty_false_of_ne hne, hv, hf]
    rfl
  · intro t p user he hne hv hf hin
    simp only [authenticate, he, isEmpty_false_of_ne hne, hv, hf, hin]
    rfl
  · intro t p user he hne hv hf hac
    simp only [authenticate, he, isEmpty_false_of_ne hne, hv, hf, hac]
    rfl

/-- A verifier accepting exactly the token string `"good"`, for witnesses. -/
def demoVerify (t : List Char) : Option JwtPayload :=
  if t = "good".data then some ⟨"64b0", "a@x.com", "user"⟩ else none

theorem authenticate_state_machine_witness :
    authenticate demoVerify [demoUser] none =
      .rejected 401 "Access denied. No token provided." ∧
    authenticate demoVerify [demoUser] (some "Token abc".data) =
      .rejected 401 "Access denied. No token provided." ∧
    authenticate demoVerify [demoUser] (some "Bearer bad".data) =
      .rejected 401 "Invalid or expired token." ∧
    authenticate demoVerify [] (some "Bearer good".data) =
      .rejected 401 "User not found." ∧
    authenticate demoVerify [inactiveUser] (some "Bearer good".data) =
      .rejected 401 "User not found." ∧
    authenticate demoVerify [demoUser] (some "Bearer good".data) =
      .authenticated (sanitize demoUser) := by
  have h := authenticate_state_machine demoVerify [demoUser] none
  have h1 := authenticate_state_machine demoVerify [demoUser]
    (some "Token abc".data)
  have h2 := authenticate_state_machine demoVerify [demoUser]
    (some "Bearer bad".data)
  have h3 := authenticate_state_machine demoVerify []
    (some "Bearer good".data)
  have h4 := authenticate_state_machine demoVerify [inactiveUser]
    (some "Bearer good".data)
  have h5 := authenticate_state_machine demoVerify [demoUser]
    (some "Bearer good".data)
  refine ⟨h.1 (Or.inl (by decide)), h1.1 (Or.inl (by decide)),
    h2.2.1 "bad".data (by decide) (by decide) (by decide),
    h3.2.2.1 "good".data ⟨"64b0", "a@x.com", "user"⟩ (by decide) (by decide)
      (by decide) (by decide),
    h4.2.2.1 "good".data ⟨"64b0", "a@x.com", "user"⟩ (by decide) (by decide)
      (by decide) (by decide),
    h5.2.2.2.2 "good".data ⟨"64b0", "a@x.com", "user"⟩ demoUser (by decide)
      (by decide) (by decide) (by decide) (by decide)⟩

/-- Two stores that agree after dropping the password field give, position by
position, the same result (up to `sanitize`) for the by-id lookup performed
by the authentication gate. -/
theorem find?_byId_congr (pid : String) :
    ∀ (s1 s2 : List User), s1.map sanitize = s2.map sanitize →
      (s1.find? (fun u => decide (u._id = pid))).map sanitize =
        (s2.find? (fun u => decide (u._id = pid))).map sanitize := by
  intro s1
  induction s1 with
  | nil =>
    intro s2 h
    cases s2 with
    | nil => rfl
    | cons b s2 => simp at h
  | cons a s1 ih =>
    intro s2 h
    cases s2 with
    | nil => simp at h
    | cons b s2 =>
      rw [List.map_cons, List.map_cons, List.cons.injEq] at h
      obtain ⟨hab, htail⟩ := h
      have hid : a._id = b._id := congrArg SafeUser._id hab
      by_cases hq : a._id = pid
      · rw [List.find?_cons_of_pos _ (by simpa using hq),
          List.find?_cons_of_pos _ (by simpa using (hid ▸ hq))]
        simp [hab]
      · rw [List.find?_cons_of_neg _ (by simpa using hq),
          List.find?_cons_of_neg _ (by simpa using (hid ▸ hq))]
        exact ih s2 htail

/-- C10: the identity attached by the authentication gate excludes the stored
password hash, and the profile endpoint echoes that identity; consequently
two account stores that agree except on stored password hashes (equal after
`sanitize`) produce the very same gate outcome and the same `GET /profile`
response. -/
theorem profile_password_independence
    (verify : List Char → Option JwtPayload) (s1 s2 : List User)
    (h : Option (List Char)) (hpub : s1.map sanitize = s2.map sanitize) :
    authenticate verify s1 h = authenticate verify s2 h ∧
    (∀ su1 su2, authenticate verify s1 h = .authenticated su1 →
      authenticate verify s2 h = .authenticated su2 →
      getProfile su1 = getProfile su2) ∧
    (∀ su, authenticate verify s1 h = .authenticated su →
      ∃ u ∈ s1, su = sanitize u) := by
  have hmain : authenticate verify s1 h = authenticate verify s2 h ∧
      (∀ su, authenticate verify s1 h = .authenticated su →
        ∃ u ∈ s1, su = sanitize u) := by
    cases he : extractTokenFromHeader h with
    | none =>
      constructor
      · simp only [authenticate, he]
      · intro su hsu
        simp [authenticate, he] at hsu
    | some t =>
      cases hte : t.isEmpty with
      | true =>
        constructor
        · simp [authenticate, he, hte]
        · intro su hsu
          simp [authenticate, he, hte] at hsu
      | false =>
        cases hv : verify t with
        | none =>
          constructor
          · simp [authenticate, he, hte, hv]
          · intro su hsu
            simp [authenticate, he, hte, hv] at hsu
        | some p =>
          have hmap := find?_byId_congr p.userId s1 s2 hpub
          cases hf1 : s1.find? (fun u => decide (u._id = p.userId)) with
          | none =>
            cases hf2 : s2.find? (fun u => decide (u._id = p.userId)) with
            | some u2 => rw [hf1, hf2] at hmap; simp at hmap
            | none =>
              constructor
              · simp [authenticate, he, hte, hv, hf1, hf2]
              · intro su hsu
                simp [authenticate, he, hte, hv, hf1] at hsu
          | some u1 =>
            cases hf2 : s2.find? (fun u => decide (u._id = p.userId)) with
            | none => rw [hf1, hf2] at hmap; simp at hmap
            | some u2 =>
              rw [hf1, hf2] at hmap
              have hs : sanitize u1 = sanitize u2 := by simpa using hmap
              have hac : u1.isActive = u2.isActive :=
                congrArg SafeUser.isActive hs
              constructor
              · simp only [authenticate, he, hte, hv, hf1, hf2,
                  Bool.false_eq_true, if_false]
                rw [hs, hac]
              · intro su hsu
                simp only [authenticate, he, hte, hv, hf1,
                  Bool.false_eq_true, if_false] at hsu
                cases hia : u1.isActive with
                | false =>
                  rw [hia] at hsu
                  simp at hsu
                | true =>
                  rw [hia] at hsu
                  simp only [Bool.not_true, Bool.false_eq_true, if_false,
                    AuthOutcome.authenticated.injEq] at hsu
                  exact ⟨u1, List.mem_of_find?_eq_some hf1, hsu.symm⟩
  refine ⟨hmain.1, ?_, hmain.2⟩
  intro su1 su2 h1 h2
  rw [hmain.1, h2] at h1
  rw [AuthOutcome.authenticated.inj h1]

/-- The demo identity with a different stored password hash, for the C10
witness. -/
def demoUserAltPw : User := { demoUser with password := "bcrypt$other" }

theorem profile_password_independence_witness :
    authenticate demoVerify [demoUser] (some "Bearer good".data) =
      authenticate demoVerify [demoUserAltPw] (some "Bearer good".data) ∧
    authenticate demoVerify [demoUser] (some "Bearer bad".data) =
      authenticate demoVerify [demoUserAltPw] (some "Bearer bad".data) := by
  have h1 := profile_password_independence demoVerify [demoUser]
    [demoUserAltPw] (some "Bearer good".data) (by decide)
  have h2 := profile_password_independence demoVerify [demoUser]
    [demoUserAltPw] (some "Bearer bad".data) (by decide)
  exact ⟨h1.1, h2.1⟩

/-- Per-client entry of the rate limiter's `clients` map
(middleware/auth.ts:181): current count and window reset timestamp. -/
structure RateWindow where
  count : Nat
  resetTime : Nat
  deriving Repr, DecidableEq

/-- Outcome of one pass through the rate-limiting middleware: `next()` was
called, or a 429 with the `retryAfter` hint (in seconds) was written. -/
inductive RLOutcome where
  | allowed : RLOutcome
  | rejected : Nat → Nat → RLOutcome
  deriving Repr, DecidableEq

/-- One request through the middleware returned by `createRateLimiter`
(middleware/auth.ts:179-212), for a fixed client identifier: its map entry
(if any) and the current time decide the outcome and the new entry.
`Math.ceil((resetTime - now) / 1000)` is `(resetTime - now + 999) / 1000` in
natural arithmetic, as `now ≤ resetTime` holds in that branch. -/
def rateLimitStep (maxRequests windowMs : Nat) (client : Option RateWindow)
    (now : Nat) : RLOutcome × RateWindow :=
  match client with
  | none => (.allowed, ⟨1, now + windowMs⟩)
  | some c =>
    if now > c.resetTime then (.allowed, ⟨1, now + windowMs⟩)
    else if c.count ≥ maxRequests then
      (.rejected 429 ((c.resetTime - now + 999) / 1000), c)
    else (.allowed, ⟨c.count + 1, c.resetTime⟩)

/-- A sequence of requests from one client at the given times, starting from
the given map entry; the outcomes in order. -/
def rateLimitTrace (maxRequests windowMs : Nat) (client : Option RateWindow) :
    List Nat → List RLOutcome
  | [] => []
  | t :: ts =>
    (rateLimitStep maxRequests windowMs client t).1 ::
      rateLimitTrace maxRequests windowMs
        (some (rateLimitStep maxRequests windowMs client t).2) ts

/-- C4: with limit 5 and window 900000 ms the middleware is a fixed-window
counter: no entry or an elapsed window starts a fresh window with count 1 and
allows; a live window allows while the incremented count stays ≤ 5; the 6th
request of a window is rejected with 429 and a positive retry-after of
⌈remaining ms / 1000⌉ seconds; and once the window has elapsed the counter
resets, so request 7 (the first of the new window) is allowed.  The last
conjunct runs the full six-requests-then-one-more trace. -/
theorem rateLimiter_fixed_window (now t1 t2 t3 t4 t5 t6 t7 : Nat)
    (c : RateWindow) :
    (rateLimitStep 5 900000 none now = (.allowed, ⟨1, now + 900000⟩)) ∧
    (c.resetTime < now →
      rateLimitStep 5 900000 (some c) now = (.allowed, ⟨1, now + 900000⟩)) ∧
    (now ≤ c.resetTime → c.count < 5 →
      rateLimitStep 5 900000 (some c) now =
        (.allowed, ⟨c.count + 1, c.resetTime⟩)) ∧
    (now ≤ c.resetTime → 5 ≤ c.count →
      rateLimitStep 5 900000 (some c) now =
        (.rejected 429 ((c.resetTime - now + 999) / 1000), c) ∧
      (now < c.resetTime → 0 < (c.resetTime - now + 999) / 1000)) ∧
    (t1 ≤ t2 → t2 ≤ t3 → t3 ≤ t4 → t4 ≤ t5 → t5 ≤ t6 →
      t6 < t1 + 900000 → t1 + 900000 < t7 →
      rateLimitTrace 5 900000 none [t1, t2, t3, t4, t5, t6, t7] =
        [.allowed, .allowed, .allowed, .allowed, .allowed,
          .rejected 429 ((t1 + 900000 - t6 + 999) / 1000), .allowed] ∧
      0 < (t1 + 900000 - t6 + 999) / 1000) := by
  refine ⟨rfl, ?_, ?_, ?_, ?_⟩
  · intro hgt
    simp only [rateLimitStep, if_pos hgt]
  · intro hle hlt
    simp only [rateLimitStep]
    rw [if_neg (by omega), if_neg (by omega)]
  · intro hle hge
    constructor
    · simp only [rateLimitStep]
      rw [if_neg (by omega), if_pos (by omega)]
    · intro hlt
      exact Nat.div_pos (by omega) (by omega)
  · intro h12 h23 h34 h45 h56 h6w hw7
    constructor
    · have s1 : rateLimitStep 5 900000 none t1 =
          (.allowed, ⟨1, t1 + 900000⟩) := rfl
      have s2 : rateLimitStep 5 900000 (some ⟨1, t1 + 900000⟩) t2 =
          (.allowed, ⟨2, t1 + 900000⟩) := by
        simp only [rateLimitStep]
        rw [if_neg (by omega), if_neg (by omega)]
      have s3 : rateLimitStep 5 900000 (some ⟨2, t1 + 900000⟩) t3 =
          (.allowed, ⟨3, t1 + 900000⟩) := by
        simp only [rateLimitStep]
        rw [if_neg (by omega), if_neg (by omega)]
      have s4 : rateLimitStep 5 900000 (some ⟨3, t1 + 900000⟩) t4 =
          (.allowed, ⟨4, t1 + 900000⟩) := by
        simp only [rateLimitStep]
        rw [if_neg (by omega), if_neg (by omega)]
      have s5 : rateLimitStep 5 900000 (some ⟨4, t1 + 900000⟩) t5 =
          (.allowed, ⟨5, t1 + 900000⟩) := by
        simp only [rateLimitStep]
        rw [if_neg (by omega), if_neg (by omega)]
      have s6 : rateLimitStep 5 900000 (some ⟨5, t1 + 900000⟩) t6 =
          (.rejected 429 ((t1 + 900000 - t6 + 999) / 1000),
            ⟨5, t1 + 900000⟩) := by
        simp only [rateLimitStep]
        rw [if_neg (by omega), if_pos (by omega)]
      have s7 : rateLimitStep 5 900000 (some ⟨5, t1 + 900000⟩) t7 =
          (.allowed, ⟨1, t7 + 900000⟩) := by
        simp only [rateLimitStep]
        rw [if_pos (by omega)]
      simp only [rateLimitTrace, s1, s2, s3, s4, s5, s6, s7]
    · exact Nat.div_pos (by omega) (by omega)

theorem rateLimiter_fixed_window_witness :
    rateLimitTrace 5 900000 none [0, 1, 2, 3, 4, 5, 1000000] =
      [.allowed, .allowed, .allowed, .allowed, .allowed,
        .rejected 429 900, .allowed] ∧
    rateLimitStep 5 900000 (some ⟨5, 100⟩) 40 =
      (.rejected 429 1, ⟨5, 100⟩) ∧
    rateLimitStep 5 900000 (some ⟨5, 100⟩) 200 = (.allowed, ⟨1, 900200⟩) := by
  have h := rateLimiter_fixed_window 0 0 1 2 3 4 5 1000000 ⟨5, 100⟩
  have h2 := rateLimiter_fixed_window 40 0 1 2 3 4 5 1000000 ⟨5, 100⟩
  have h3 := rateLimiter_fixed_window 200 0 1 2 3 4 5 1000000 ⟨5, 100⟩
  refine ⟨?_, ?_, ?_⟩
  · have := (h.2.2.2.2 (by decide) (by decide) (by decide) (by decide)
      (by decide) (by decide) (by decide)).1
    simpa using this
  · have := (h2.2.2.2.1 (by decide) (by decide)).1
    simpa using this
  · have := h3.2.1 (by decide)
    simpa using this

end TaskFlow
